import Mathlib

/-!
Verification development for the authentication core of the fin-stack-server
repository (Rust, actix-web + diesel + jsonwebtoken + bcrypt).

The Rust source is shallowly embedded:

* pure helpers (`hash_password`, `verify_password`, `generate_token`,
  `validate_token`, `extract_token_from_request`) become Lean functions;
* the database and the other fallible external calls (pool acquisition,
  queries, bcrypt, jsonwebtoken encode) are passed in explicitly: the store
  is a list of user rows threaded through the flows, and the success or
  failure of each infrastructure call is an explicit boolean field of an
  effects record, matching the `map_err` structure of the Rust code;
* machine integers are `Nat` (all the quantities involved - timestamps,
  TTLs, HTTP statuses - are non-negative and far from overflow);
* the compact JWS serialization (base64url of JSON segments joined by dots)
  is modelled by an executable injective textual encoding with the same
  shape: dot-separated segments carrying the algorithm, the four claim
  fields and the signature. The HMAC-SHA256 signature is modelled by an
  executable deterministic keyed hash over the secret, the algorithm and
  the claims; no theorem below relies on the hash being collision free
  except at concrete evaluated inputs.

Each claim theorem cites the Rust function it is about; the definitions
follow `src/services/auth_service.rs`, `src/models/auth.rs`,
`src/models/user.rs` and `src/controllers/auth_controller.rs` clause by
clause. Definitions come first, then the supporting lemmas and the claim
theorems.
-/

namespace FinStack

/-- Decidable equality for `Except`, needed to evaluate flow results. -/
instance {ε α : Type} [DecidableEq ε] [DecidableEq α] : DecidableEq (Except ε α) := fun a b =>
  match a, b with
  | .ok x, .ok y =>
    if h : x = y then .isTrue (by rw [h]) else .isFalse (by intro hc; cases hc; exact h rfl)
  | .error x, .error y =>
    if h : x = y then .isTrue (by rw [h]) else .isFalse (by intro hc; cases hc; exact h rfl)
  | .ok _, .error _ => .isFalse (by intro hc; cases hc)
  | .error _, .ok _ => .isFalse (by intro hc; cases hc)

/-! ### Decimal rendering of naturals

Used for the textual form of numeric token segments and for the string
form of user ids. `natCharsAux` is fuel-structural so that closed
instances reduce inside the kernel. -/

/-- Character for one decimal digit. -/
def digitChar (d : Nat) : Char :=
  match d with
  | 0 => '0' | 1 => '1' | 2 => '2' | 3 => '3' | 4 => '4'
  | 5 => '5' | 6 => '6' | 7 => '7' | 8 => '8' | _ => '9'

/-- Numeric value of a decimal digit character, `none` on a non-digit. -/
def digitVal? (c : Char) : Option Nat :=
  if 48 ≤ c.toNat ∧ c.toNat ≤ 57 then some (c.toNat - 48) else none

/-- Fuelled most-significant-first decimal rendering. -/
def natCharsAux : Nat → Nat → List Char
  | 0, _ => []
  | fuel + 1, n =>
    if n < 10 then [digitChar n] else natCharsAux fuel (n / 10) ++ [digitChar (n % 10)]

/-- Decimal digits of `n`, most significant first. -/
def natChars (n : Nat) : List Char := natCharsAux (n + 1) n

/-- Decimal rendering of `n` as a string. -/
def natStr (n : Nat) : String := String.mk (natChars n)

/-- Fold decimal digit characters into an accumulator. -/
def charsToNatCore (acc : Option Nat) (l : List Char) : Option Nat :=
  l.foldl (fun a c => a.bind (fun x => (digitVal? c).map (fun d => x * 10 + d))) acc

/-- Parse a non-empty all-digit character list as a natural number. -/
def charsToNat? (l : List Char) : Option Nat :=
  if l.isEmpty then none else charsToNatCore (some 0) l

/-! ### Injective textual code for strings

Models the base64url segment encoding of the compact JWS form: an injective
executable map from strings to numbers, with a left inverse. Characters
become digits base 1114112 (one more than the largest code point), shifted
by one so the empty string is distinguishable. -/

/-- One more than the largest Unicode code point. -/
def charBase : Nat := 1114112

/-- Injective numeric code of a character list. -/
def strCodeList : List Char → Nat
  | [] => 0
  | c :: cs => c.toNat + 1 + charBase * strCodeList cs

/-- Injective numeric code of a string. -/
def strCode (s : String) : Nat := strCodeList s.data

/-- Fuelled decoder, left inverse of `strCodeList`. -/
def strDecodeAux : Nat → Nat → List Char
  | 0, _ => []
  | _, 0 => []
  | fuel + 1, m + 1 => Char.ofNat (m % charBase) :: strDecodeAux fuel (m / charBase)

/-- Decode a numeric string code back into a string. -/
def strDecode (m : Nat) : String := String.mk (strDecodeAux (m + 1) m)

/-- Split a character list at every dot, modelling JWS segment structure. -/
def splitDots : List Char → List (List Char)
  | [] => [[]]
  | c :: rest =>
    if c = '.' then [] :: splitDots rest
    else
      match splitDots rest with
      | [] => [[c]]
      | g :: gs => (c :: g) :: gs

/-! ### Uuid

Models `uuid::Uuid`: an opaque identifier with an injective textual
rendering (`Uuid::to_string`) and a partial inverse (`Uuid::parse_str`)
that rejects strings which are not renderings of any id. The hyphenated
hexadecimal format is abstracted to the decimal rendering; only
injectivity and the partial-inverse relation matter to the claims. -/

abbrev Uuid := Nat

/-- Model of `Uuid::to_string`. -/
def uuidToString (u : Uuid) : String := natStr u

/-- Model of `Uuid::parse_str`, `none` on malformed input. -/
def uuidParseStr (s : String) : Option Uuid := charsToNat? s.data

/-! ### Credential hasher

Models the `bcrypt` crate as called by `AuthService::hash_password` and
`AuthService::verify_password` (src/services/auth_service.rs lines 19-26).
The crate truncates the password to its first 72 bytes before hashing, and
the produced hash string embeds its own cost and salt, which `verify`
reads back to recompute the digest. The EksBlowfish-derived digest is
modelled as an injective record of its inputs (cost, salt, truncated
password bytes); real bcrypt is a fixed-width pseudorandom function,
collision resistant rather than injective, so the model idealises away
accidental digest collisions but keeps the structural truncation. -/

/-- Value of `bcrypt::DEFAULT_COST`. -/
def DEFAULT_COST : Nat := 12

/-- Truncation applied by the bcrypt crate before hashing. -/
def bcryptTruncate (p : List Nat) : List Nat := p.take 72

/-- Parsed form of a self-describing bcrypt hash string. -/
structure BcryptHash where
  cost : Nat
  salt : Nat
  digest : List Nat
deriving DecidableEq

/-- Model of the bcrypt digest computation (idealised as injective). -/
def bcryptDigest (cost salt : Nat) (input : List Nat) : List Nat := cost :: salt :: input

/-- Bytes of a password string (code points; identical for ASCII input). -/
def strBytes (s : String) : List Nat := s.data.map Char.toNat

/-- Model of `AuthService::hash_password`: `bcrypt::hash(password, DEFAULT_COST)`.
The salt is drawn by the crate; it is passed explicitly here. -/
def hash_password (salt : Nat) (password : String) : BcryptHash :=
  ⟨DEFAULT_COST, salt, bcryptDigest DEFAULT_COST salt (bcryptTruncate (strBytes password))⟩

/-- Model of `AuthService::verify_password`: `bcrypt::verify(password, hash)`
recomputes the digest with the cost and salt read from the hash and
compares. -/
def verify_password (password : String) (h : BcryptHash) : Bool :=
  bcryptDigest h.cost h.salt (bcryptTruncate (strBytes password)) == h.digest

/-! ### Claims and users (src/models/auth.rs, src/models/user.rs) -/

/-- JWT claim set, from `src/models/auth.rs` lines 50-56. -/
structure Claims where
  sub : String
  email : String
  exp : Nat
  iat : Nat
deriving DecidableEq

/-- Model of `Claims::new` (src/models/auth.rs lines 58-67): `sub` is the
string form of the user id, `iat` is the clock reading (`now`), passed
explicitly. -/
def Claims.new (user_id : Uuid) (email : String) (exp : Nat) (now : Nat) : Claims :=
  ⟨uuidToString user_id, email, exp, now⟩

/-- User row, from `src/models/user.rs` lines 12-27. The `password` field
holds the bcrypt hash (modelled parsed); timestamps are seconds. `NewUser`
has the same fields and `insert_into(users).returning(User)` hands the
same record back, so one structure serves both. -/
structure User where
  id : Uuid
  first_name : String
  last_name : String
  email : String
  password : BcryptHash
  created_at : Nat
  updated_at : Nat
deriving DecidableEq

/-! ### Token codec (src/services/auth_service.rs lines 28-56)

`generate_token` and `validate_token` call the `jsonwebtoken` crate with
`Header::default()` (HS256) and `Validation::new(Algorithm::HS256)`. The
compact serialization is the dot-separated segment encoding defined below;
the HMAC-SHA256 signature is a deterministic keyed hash of the secret, the
algorithm and the claims. `Validation::new` sets a default leeway of 60
seconds, and `decode` checks the algorithm, then the signature, then the
expiry: the token is expired exactly when `exp < now - leeway`. -/

/-- Algorithm label of `Header::default()` and `Validation::new`. -/
def algHS256 : String := "HS256"

/-- Hard-coded fallback secret from lines 30 and 47 of the service. -/
def fallbackSecret : String := "your-secret-key"

/-- Secret selection: `env::var("JWT_SECRET").unwrap_or_else(|_| "your-secret-key")`,
evaluated on every call. The environment is passed as the current value of
`JWT_SECRET`. -/
def secretOf (jwtSecretEnv : Option String) : String := jwtSecretEnv.getD fallbackSecret

/-- Mixing step of the modelled MAC. -/
def hmix (a n : Nat) : Nat := (a * 131 + n + 1) % 1000000007

/-- Fold a string into the modelled MAC state. -/
def hmixStr (a : Nat) (s : String) : Nat := s.data.foldl (fun b c => hmix b c.toNat) a

/-- Modelled HMAC-SHA256 over the signing input: keyed by the secret,
covering the algorithm header and every claim field. -/
def macSign (secret alg : String) (c : Claims) : Nat :=
  hmix (hmix (hmixStr (hmixStr (hmixStr (hmixStr 7 secret) alg) c.sub) c.email) c.exp) c.iat

/-- A decoded compact JWS: algorithm header, claim set, signature. -/
structure Jwt where
  alg : String
  claims : Claims
  sig : Nat
deriving DecidableEq

/-- Sign a claim set under a secret with the HS256 header. -/
def signJwt (secret : String) (c : Claims) : Jwt :=
  ⟨algHS256, c, macSign secret algHS256 c⟩

/-- Characters of the compact serialization: dot-separated segments for
the algorithm, the four claim fields and the signature. -/
def tokenChars (t : Jwt) : List Char :=
  natChars (strCode t.alg) ++ ('.' :: (natChars (strCode t.claims.sub)
    ++ ('.' :: (natChars (strCode t.claims.email) ++ ('.' :: (natChars t.claims.exp
    ++ ('.' :: (natChars t.claims.iat ++ ('.' :: natChars t.sig)))))))))

/-- Compact serialization of a token, the string handed to clients. -/
def serializeJwt (t : Jwt) : String := String.mk (tokenChars t)

/-- Parse a compact serialization back into a token; `none` when the
string is structurally malformed. -/
def parseJwt (s : String) : Option Jwt :=
  match splitDots s.data with
  | [a, b, c, d, e, f] =>
    match charsToNat? a, charsToNat? b, charsToNat? c,
        charsToNat? d, charsToNat? e, charsToNat? f with
    | some na, some nb, some nc, some nd, some ni, some nf =>
      some ⟨strDecode na, ⟨strDecode nb, strDecode nc, nd, ni⟩, nf⟩
    | _, _, _, _, _, _ => none
  | _ => none

/-- Default leeway, in seconds, set by `jsonwebtoken::Validation::new`. -/
def validateLeeway : Nat := 60

/-- Failure modes of `jsonwebtoken::decode` relevant to this code path. -/
inductive JwtError
  | malformedToken
  | invalidAlgorithm
  | invalidSignature
  | expiredSignature
deriving DecidableEq

/-- Model of `AuthService::generate_token` (src/services/auth_service.rs
lines 29-43): reads `JWT_SECRET` with the hard-coded fallback, sets the
expiry 24 hours from now, builds the claims via `Claims::new` and signs.
The clock reading is passed explicitly as `now`. -/
def generate_token (jwtSecretEnv : Option String) (now : Nat) (user : User) : String :=
  let secret := secretOf jwtSecretEnv
  let expiration := now + 24 * 3600
  let claims := Claims.new user.id user.email expiration now
  serializeJwt (signJwt secret claims)

/-- Checks performed by `jsonwebtoken::decode` on a structurally
well-formed token, in source order: algorithm, signature, expiry with the
default leeway. -/
def validateJwt (secret : String) (now : Nat) (t : Jwt) : Except JwtError Claims :=
  if t.alg ≠ algHS256 then .error .invalidAlgorithm
  else if t.sig ≠ macSign secret t.alg t.claims then .error .invalidSignature
  else if t.claims.exp < now - validateLeeway then .error .expiredSignature
  else .ok t.claims

/-- Model of `AuthService::validate_token` (src/services/auth_service.rs
lines 46-56): reads the secret the same way as `generate_token`, then
decodes with `Validation::new(Algorithm::HS256)`: structural parse, then
the checks of `validateJwt`. -/
def validate_token (jwtSecretEnv : Option String) (now : Nat) (token : String) :
    Except JwtError Claims :=
  match parseJwt token with
  | none => .error .malformedToken
  | some t => validateJwt (secretOf jwtSecretEnv) now t

/-! ### Request and response shapes (src/models/auth.rs) -/

/-- Body of `POST /api/auth/register` (src/models/auth.rs lines 13-25). -/
structure RegisterRequest where
  first_name : String
  last_name : String
  email : String
  password : String
  confirm_password : String
deriving DecidableEq

/-- Body of `POST /api/auth/login` (src/models/auth.rs lines 5-11). -/
structure LoginRequest where
  email : String
  password : String
deriving DecidableEq

/-- Safe user projection (src/models/auth.rs lines 38-48): exactly id,
first name, last name and email; the structure has no password field. -/
structure UserInfo where
  id : Uuid
  first_name : String
  last_name : String
  email : String
deriving DecidableEq

/-- Token envelope (src/models/auth.rs lines 27-36). -/
structure TokenResponse where
  token : String
  token_type : String
  expires_in : Nat
  user : UserInfo
deriving DecidableEq

/-- Error record (src/models/auth.rs lines 69-75). -/
structure AuthError where
  message : String
  code : String
deriving DecidableEq

/-! ### Error constants, with the message and code strings of the source. -/

def dbConnectionError : AuthError := ⟨"Database connection failed", "DB_CONNECTION_ERROR"⟩

def passwordMismatchError : AuthError := ⟨"Passwords do not match", "PASSWORD_MISMATCH"⟩

def dbQueryError : AuthError := ⟨"Database query failed", "DB_QUERY_ERROR"⟩

def emailExistsError : AuthError := ⟨"Email already exists", "EMAIL_EXISTS"⟩

def hashFailError : AuthError := ⟨"Password hashing failed", "HASH_ERROR"⟩

def userCreationError : AuthError := ⟨"Failed to create user", "USER_CREATION_ERROR"⟩

def tokenGenerationError : AuthError := ⟨"Token generation failed", "TOKEN_ERROR"⟩

def invalidCredentialsError : AuthError := ⟨"Invalid credentials", "INVALID_CREDENTIALS"⟩

def verificationFailError : AuthError := ⟨"Password verification failed", "VERIFICATION_ERROR"⟩

def invalidTokenError : AuthError := ⟨"Invalid token", "INVALID_TOKEN"⟩

def invalidUserIdError : AuthError := ⟨"Invalid user ID in token", "INVALID_USER_ID"⟩

def userNotFoundError : AuthError := ⟨"User not found", "USER_NOT_FOUND"⟩

def missingAuthHeaderError : AuthError := ⟨"Missing Authorization header", "MISSING_AUTH_HEADER"⟩

def invalidAuthHeaderError : AuthError := ⟨"Invalid Authorization header", "INVALID_AUTH_HEADER"⟩

def invalidAuthFormatError : AuthError := ⟨"Invalid Authorization format", "INVALID_AUTH_FORMAT"⟩

/-! ### The user store and the per-call effect outcomes

The diesel-backed `users` table is a list of rows. Each flow also returns
the list of store operations it attempted, so that "no insert attempted"
style properties are statable. Infrastructure outcomes (pool acquisition,
query errors, bcrypt and jsonwebtoken failures) are fields of an effects
record, one per `map_err` site of the Rust flow. -/

/-- The `users` table. -/
structure Store where
  users : List User
deriving DecidableEq

/-- Model of `users::table.filter(users::email.eq(email)).first::<User>(..).optional()`. -/
def Store.findByEmail (st : Store) (e : String) : Option User :=
  st.users.find? (fun u => u.email == e)

/-- Model of `users::table.find(user_id).first::<User>(..).optional()`. -/
def Store.findById (st : Store) (i : Uuid) : Option User :=
  st.users.find? (fun u => u.id == i)

/-- Model of `diesel::insert_into(users::table).values(&new_user)`. -/
def Store.insertUser (st : Store) (u : User) : Store :=
  ⟨st.users ++ [u]⟩

/-- Store operations a flow can attempt, in attempt order. -/
inductive StoreOp
  | lookupEmail (e : String)
  | hashPw
  | insertUser (u : User)
  | lookupId (i : Uuid)
  | verifyPw
deriving DecidableEq

/-- Outcomes of the external calls made by `register_user`: pool
acquisition, the email lookup query, bcrypt (with the salt it draws and
the id `Uuid::new_v4` draws), the insert, and jsonwebtoken encode. -/
structure RegisterEffects where
  connOk : Bool
  lookupOk : Bool
  hashOk : Bool
  salt : Nat
  newId : Uuid
  insertOk : Bool
  signOk : Bool
deriving DecidableEq

/-- Outcomes of the external calls made by `login_user`. -/
structure LoginEffects where
  connOk : Bool
  lookupOk : Bool
  verifyOk : Bool
  signOk : Bool
deriving DecidableEq

/-- Outcomes of the external calls made by `get_current_user`. -/
structure MeEffects where
  connOk : Bool
  lookupOk : Bool
deriving DecidableEq

/-- The user row built by `NewUser::new` (src/models/user.rs lines 53-65)
from the registration data, the freshly drawn id, the bcrypt hash and the
clock; `insert_into(..).returning(User::as_returning())` hands the same
row back. -/
def newUserOf (eff : RegisterEffects) (now : Nat) (register_data : RegisterRequest) : User :=
  ⟨eff.newId, register_data.first_name, register_data.last_name, register_data.email,
    hash_password eff.salt register_data.password, now, now⟩

/-- The safe projection built inline by `register_user`, `login_user`
(src/services/auth_service.rs lines 128-133, 187-192) and the `me`
controller (src/controllers/auth_controller.rs lines 75-80): id, first
name, last name, email, and nothing else. -/
def userInfoOf (u : User) : UserInfo := ⟨u.id, u.first_name, u.last_name, u.email⟩

/-! ### The three service flows (src/services/auth_service.rs) -/

/-- Model of `AuthService::register_user` (lines 59-135): connection,
password confirmation, email-existence lookup, hash, insert, token, in
source order, each failure mapped to its error record. Returns the result,
the store after the call, and the attempted store operations. -/
def register_user (jwtSecretEnv : Option String) (now : Nat) (eff : RegisterEffects)
    (st : Store) (register_data : RegisterRequest) :
    Except AuthError TokenResponse × Store × List StoreOp :=
  if !eff.connOk then (.error dbConnectionError, st, [])
  else if register_data.password ≠ register_data.confirm_password then
    (.error passwordMismatchError, st, [])
  else if !eff.lookupOk then (.error dbQueryError, st, [.lookupEmail register_data.email])
  else
    match st.findByEmail register_data.email with
    | some _ => (.error emailExistsError, st, [.lookupEmail register_data.email])
    | none =>
      if !eff.hashOk then
        (.error hashFailError, st, [.lookupEmail register_data.email, .hashPw])
      else
        let user := newUserOf eff now register_data
        let ops := [.lookupEmail register_data.email, .hashPw, .insertUser user]
        if !eff.insertOk then (.error userCreationError, st, ops)
        else
          let st2 := st.insertUser user
          if !eff.signOk then (.error tokenGenerationError, st2, ops)
          else
            (.ok ⟨generate_token jwtSecretEnv now user, "Bearer", 24 * 3600,
              userInfoOf user⟩, st2, ops)

/-- Model of `AuthService::login_user` (lines 138-194): connection, email
lookup (absent user and clean password mismatch both map to
`INVALID_CREDENTIALS`), bcrypt verify, token. The store is read-only here;
the attempted operations are returned. -/
def login_user (jwtSecretEnv : Option String) (now : Nat) (eff : LoginEffects)
    (st : Store) (login_data : LoginRequest) :
    Except AuthError TokenResponse × List StoreOp :=
  if !eff.connOk then (.error dbConnectionError, [])
  else if !eff.lookupOk then (.error dbQueryError, [.lookupEmail login_data.email])
  else
    match st.findByEmail login_data.email with
    | none => (.error invalidCredentialsError, [.lookupEmail login_data.email])
    | some user =>
      if !eff.verifyOk then
        (.error verificationFailError, [.lookupEmail login_data.email, .verifyPw])
      else if !(verify_password login_data.password user.password) then
        (.error invalidCredentialsError, [.lookupEmail login_data.email, .verifyPw])
      else if !eff.signOk then
        (.error tokenGenerationError, [.lookupEmail login_data.email, .verifyPw])
      else
        (.ok ⟨generate_token jwtSecretEnv now user, "Bearer", 24 * 3600,
          userInfoOf user⟩, [.lookupEmail login_data.email, .verifyPw])

/-- Value of the `Authorization` header: either bytes that do not decode
as visible ASCII (`to_str` fails) or a decodable string. -/
inductive HeaderValue
  | nonDecodable
  | ascii (s : String)
deriving DecidableEq

/-- The part of an inbound request the auth service reads. -/
structure HttpRequest where
  authorization : Option HeaderValue
deriving DecidableEq

/-- Model of `AuthService::extract_token_from_request` (lines 235-259):
missing header, non-decodable header, missing `Bearer ` scheme, then the
substring after the 7-byte scheme tag. -/
def extract_token_from_request (req : HttpRequest) : Except AuthError String :=
  match req.authorization with
  | none => .error missingAuthHeaderError
  | some .nonDecodable => .error invalidAuthHeaderError
  | some (.ascii s) =>
    if !("Bearer ".data.isPrefixOf s.data) then .error invalidAuthFormatError
    else .ok (String.mk (s.data.drop 7))

/-- Model of `AuthService::get_current_user` (lines 197-232): token
extraction, token validation and subject parsing come first; the pooled
connection is acquired only after them, then the id lookup runs. -/
def get_current_user (jwtSecretEnv : Option String) (now : Nat) (eff : MeEffects)
    (st : Store) (req : HttpRequest) :
    Except AuthError User × List StoreOp :=
  match extract_token_from_request req with
  | .error e => (.error e, [])
  | .ok token =>
    match validate_token jwtSecretEnv now token with
    | .error _ => (.error invalidTokenError, [])
    | .ok claims =>
      match uuidParseStr claims.sub with
      | none => (.error invalidUserIdError, [])
      | some user_id =>
        if !eff.connOk then (.error dbConnectionError, [])
        else if !eff.lookupOk then (.error dbQueryError, [.lookupId user_id])
        else
          match st.findById user_id with
          | none => (.error userNotFoundError, [.lookupId user_id])
          | some user => (.ok user, [.lookupId user_id])

/-! ### Controller status mapping (src/controllers/auth_controller.rs)

Each controller matches on the error code string and picks the HTTP
status; unknown codes fall through to 500. -/

/-- Status picked by the `register` controller (lines 17-29). -/
def registerStatus (r : Except AuthError TokenResponse) : Nat :=
  match r with
  | .ok _ => 201
  | .error e =>
    if e.code == "EMAIL_EXISTS" then 409
    else if e.code == "PASSWORD_MISMATCH" then 400
    else 500

/-- Status picked by the `login` controller (lines 42-53). -/
def loginStatus (r : Except AuthError TokenResponse) : Nat :=
  match r with
  | .ok _ => 200
  | .error e => if e.code == "INVALID_CREDENTIALS" then 401 else 500

/-- Status picked by the `me` controller (lines 68-91). -/
def meStatus (r : Except AuthError User) : Nat :=
  match r with
  | .ok _ => 200
  | .error e =>
    if e.code == "MISSING_AUTH_HEADER" || e.code == "INVALID_TOKEN"
        || e.code == "INVALID_AUTH_HEADER" || e.code == "INVALID_AUTH_FORMAT" then 401
    else if e.code == "USER_NOT_FOUND" then 404
    else 500

/-! ### Concrete sample data used by witnesses. -/

/-- Sample registration body. -/
def sampleRegData : RegisterRequest := ⟨"John", "Doe", "a@b", "pw123", "pw123"⟩

/-- Sample all-successful register effects. -/
def sampleRegEffects : RegisterEffects := ⟨true, true, true, 3, 7, true, true⟩

/-- The row the sample registration inserts. -/
def sampleRegUser : User := newUserOf sampleRegEffects 500 sampleRegData

/-- A password of `n` repeated ASCII bytes. -/
def longPw (n : Nat) : String := String.mk (List.replicate n 'a')

/-! ## Supporting lemmas -/

theorem natCharsAux_congr (n : Nat) :
    ∀ f1 f2, n < f1 → n < f2 → natCharsAux f1 n = natCharsAux f2 n := by
  induction n using Nat.strong_induction_on with
  | _ n ih =>
    intro f1 f2 h1 h2
    cases f1 with
    | zero => omega
    | succ f1 =>
      cases f2 with
      | zero => omega
      | succ f2 =>
        simp only [natCharsAux]
        by_cases h : n < 10
        · simp [h]
        · have hn : 0 < n := by omega
          have hd : n / 10 < n := Nat.div_lt_self hn (by omega)
          simp only [if_neg h]
          rw [ih (n / 10) hd f1 f2 (by omega) (by omega)]

theorem natChars_unfold (n : Nat) :
    natChars n = if n < 10 then [digitChar n] else natChars (n / 10) ++ [digitChar (n % 10)] := by
  unfold natChars
  conv_lhs => rw [natCharsAux]
  by_cases h : n < 10
  · simp [h]
  · have hn : 0 < n := by omega
    have hd : n / 10 < n := Nat.div_lt_self hn (by omega)
    simp only [if_neg h]
    rw [natCharsAux_congr (n / 10) n (n / 10 + 1) (by omega) (by omega)]

theorem digitVal?_digitChar (d : Nat) (h : d < 10) : digitVal? (digitChar d) = some d := by
  interval_cases d <;> rfl

theorem digitChar_ne_dot (d : Nat) : digitChar d ≠ '.' := by
  unfold digitChar
  split <;> decide

theorem dot_not_mem_natChars (n : Nat) : '.' ∉ natChars n := by
  induction n using Nat.strong_induction_on with
  | _ n ih =>
    rw [natChars_unfold]
    by_cases h : n < 10
    · simp only [if_pos h, List.mem_singleton]
      exact fun hc => digitChar_ne_dot n hc.symm
    · have hn : 0 < n := by omega
      have hd : n / 10 < n := Nat.div_lt_self hn (by omega)
      simp only [if_neg h, List.mem_append, List.mem_singleton]
      rintro (hc | hc)
      · exact ih (n / 10) hd hc
      · exact digitChar_ne_dot (n % 10) hc.symm

theorem natChars_ne_nil (n : Nat) : natChars n ≠ [] := by
  rw [natChars_unfold]
  by_cases h : n < 10
  · simp [h]
  · simp [h]

theorem charsToNatCore_natChars (n : Nat) :
    ∀ a, charsToNatCore (some a) (natChars n) = some (a * 10 ^ (natChars n).length + n) := by
  induction n using Nat.strong_induction_on with
  | _ n ih =>
    intro a
    rw [natChars_unfold]
    by_cases h : n < 10
    · simp only [if_pos h, charsToNatCore, List.foldl_cons, List.foldl_nil,
        digitVal?_digitChar n h, List.length_singleton, pow_one]
      rfl
    · have hn : 0 < n := by omega
      have hd : n / 10 < n := Nat.div_lt_self hn (by omega)
      simp only [if_neg h, charsToNatCore, List.foldl_append, List.foldl_cons, List.foldl_nil]
      have hcore := ih (n / 10) hd a
      simp only [charsToNatCore] at hcore
      rw [hcore, digitVal?_digitChar (n % 10) (Nat.mod_lt n (by omega))]
      have hdm : n / 10 * 10 + n % 10 = n := Nat.div_add_mod' n 10
      have harith : (a * 10 ^ (natChars (n / 10)).length + n / 10) * 10 + n % 10
          = a * 10 ^ ((natChars (n / 10)).length + 1) + n := by
        rw [pow_succ]
        calc (a * 10 ^ (natChars (n / 10)).length + n / 10) * 10 + n % 10
            = a * (10 ^ (natChars (n / 10)).length * 10) + (n / 10 * 10 + n % 10) := by ring
          _ = a * (10 ^ (natChars (n / 10)).length * 10) + n := by rw [hdm]
      simp only [List.length_append, List.length_singleton]
      exact congrArg some harith

theorem charsToNat?_natChars (n : Nat) : charsToNat? (natChars n) = some n := by
  unfold charsToNat?
  rw [if_neg (by simp [List.isEmpty_iff, natChars_ne_nil n])]
  rw [charsToNatCore_natChars n 0]
  simp

theorem char_toNat_lt (c : Char) : c.toNat < charBase := by
  have h := c.valid
  simp only [charBase, Char.toNat]
  rcases h with h | h
  · omega
  · omega

theorem strDecodeAux_congr (m : Nat) :
    ∀ f1 f2, m < f1 → m < f2 → strDecodeAux f1 m = strDecodeAux f2 m := by
  induction m using Nat.strong_induction_on with
  | _ m ih =>
    intro f1 f2 h1 h2
    cases f1 with
    | zero => omega
    | succ f1 =>
      cases f2 with
      | zero => omega
      | succ f2 =>
        cases m with
        | zero => rfl
        | succ k =>
          simp only [strDecodeAux]
          have hdle : k / charBase ≤ k := Nat.div_le_self k charBase
          rw [ih (k / charBase) (by omega) f1 f2 (by omega) (by omega)]

theorem strDecodeAux_code (l : List Char) :
    strDecodeAux (strCodeList l + 1) (strCodeList l) = l := by
  induction l with
  | nil => rfl
  | cons c cs ih =>
    have hlt : c.toNat < charBase := char_toNat_lt c
    have hcode : strCodeList (c :: cs) = (c.toNat + charBase * strCodeList cs) + 1 := by
      simp only [strCodeList]
      omega
    rw [hcode]
    simp only [strDecodeAux]
    have hmod : (c.toNat + charBase * strCodeList cs) % charBase = c.toNat := by
      rw [Nat.add_mul_mod_self_left, Nat.mod_eq_of_lt hlt]
    have hdiv : (c.toNat + charBase * strCodeList cs) / charBase = strCodeList cs := by
      rw [Nat.add_mul_div_left _ _ (by simp [charBase]), Nat.div_eq_of_lt hlt, Nat.zero_add]
    rw [hmod, hdiv, Char.ofNat_toNat]
    have hle : strCodeList cs ≤ charBase * strCodeList cs :=
      Nat.le_mul_of_pos_left _ (by simp [charBase])
    rw [strDecodeAux_congr (strCodeList cs) (c.toNat + charBase * strCodeList cs + 1)
      (strCodeList cs + 1) (by omega) (by omega), ih]

theorem strDecode_code (s : String) : strDecode (strCode s) = s := by
  unfold strDecode strCode
  rw [strDecodeAux_code s.data]

theorem splitDots_cons_dot (xs rest : List Char) (h : '.' ∉ xs) :
    splitDots (xs ++ '.' :: rest) = xs :: splitDots rest := by
  induction xs with
  | nil => simp [splitDots]
  | cons c cs ih =>
    have hc : c ≠ '.' := by intro hc; exact h (by simp [hc])
    have hcs : '.' ∉ cs := by intro hm; exact h (by simp [hm])
    simp only [List.cons_append, splitDots, if_neg hc]
    rw [List.append_eq, ih hcs]

theorem splitDots_no_dot (xs : List Char) (h : '.' ∉ xs) : splitDots xs = [xs] := by
  induction xs with
  | nil => rfl
  | cons c cs ih =>
    have hc : c ≠ '.' := by intro hc; exact h (by simp [hc])
    have hcs : '.' ∉ cs := by intro hm; exact h (by simp [hm])
    simp only [splitDots, if_neg hc, ih hcs]

theorem uuidParseStr_toString (u : Uuid) : uuidParseStr (uuidToString u) = some u := by
  unfold uuidParseStr uuidToString natStr
  exact charsToNat?_natChars u

theorem parseJwt_serializeJwt (t : Jwt) : parseJwt (serializeJwt t) = some t := by
  have hdata : (serializeJwt t).data = tokenChars t := rfl
  have hsplit : splitDots (tokenChars t) =
      [natChars (strCode t.alg), natChars (strCode t.claims.sub),
        natChars (strCode t.claims.email), natChars t.claims.exp,
        natChars t.claims.iat, natChars t.sig] := by
    unfold tokenChars
    rw [splitDots_cons_dot _ _ (dot_not_mem_natChars _),
      splitDots_cons_dot _ _ (dot_not_mem_natChars _),
      splitDots_cons_dot _ _ (dot_not_mem_natChars _),
      splitDots_cons_dot _ _ (dot_not_mem_natChars _),
      splitDots_cons_dot _ _ (dot_not_mem_natChars _),
      splitDots_no_dot _ (dot_not_mem_natChars _)]
  unfold parseJwt
  rw [hdata, hsplit]
  simp only [charsToNat?_natChars, strDecode_code]

theorem validate_token_parsed (env : Option String) (now : Nat) (tok : String) (t : Jwt)
    (h : parseJwt tok = some t) :
    validate_token env now tok = validateJwt (secretOf env) now t := by
  unfold validate_token
  rw [h]

theorem validate_token_signed (env : Option String) (now : Nat) (c : Claims) :
    validate_token env now (serializeJwt (signJwt (secretOf env) c)) =
      if c.exp < now - validateLeeway then .error .expiredSignature else .ok c := by
  rw [validate_token_parsed env now _ _ (parseJwt_serializeJwt (signJwt (secretOf env) c))]
  unfold validateJwt signJwt
  simp

theorem tokenChars_ne_nil (t : Jwt) : tokenChars t ≠ [] := by
  unfold tokenChars
  intro h
  rw [List.append_eq_nil] at h
  exact natChars_ne_nil _ h.1

theorem generate_token_ne_empty (env : Option String) (now : Nat) (user : User) :
    generate_token env now user ≠ "" := by
  intro h
  exact tokenChars_ne_nil _ (congrArg String.data h)

theorem find?_append_none {α : Type} (p : α → Bool) (l1 l2 : List α)
    (h : l1.find? p = none) : (l1 ++ l2).find? p = l2.find? p := by
  induction l1 with
  | nil => rfl
  | cons v vs ih =>
    simp only [List.cons_append, List.find?_cons] at h ⊢
    cases hbe : p v with
    | true => simp only [hbe] at h; exact Option.noConfusion h
    | false =>
      simp only [hbe] at h ⊢
      exact ih h

theorem findByEmail_insert_of_none (st : Store) (u : User)
    (h : st.findByEmail u.email = none) :
    (st.insertUser u).findByEmail u.email = some u := by
  unfold Store.findByEmail Store.insertUser at *
  show (st.users ++ [u]).find? (fun v => v.email == u.email) = some u
  rw [find?_append_none _ _ _ h]
  simp [List.find?_cons]

/-! ## Claim theorems -/

/-- C1, counterexample: `AuthService::validate_token` does not compare the
expiry strictly against the wall clock. This correctly signed token has its
embedded expiry (1000) at or before the validation time (1030), so the
claim requires failure, yet validation succeeds: `Validation::new` in the
jsonwebtoken crate applies a default 60 second leeway. -/
theorem c1_strict_expiry_counterexample :
    (⟨"7", "a@b", 1000, 900⟩ : Claims).exp ≤ 1030
    ∧ validate_token none 1030 (serializeJwt (signJwt (secretOf none) ⟨"7", "a@b", 1000, 900⟩))
        = .ok ⟨"7", "a@b", 1000, 900⟩ := by
  decide

/-- C1, amended: a correctly signed token fails validation with the expiry
error exactly when its expiry lies more than the default 60 second leeway
(`validateLeeway`, set by `jsonwebtoken::Validation::new`) before the
current time; an expiry within the leeway window, including one at or
shortly before now, still validates. There is no other compensation. -/
theorem c1_expiry_leeway (env : Option String) (now : Nat) (c : Claims) :
    (c.exp + validateLeeway < now →
      validate_token env now (serializeJwt (signJwt (secretOf env) c))
        = .error .expiredSignature)
    ∧ (now ≤ c.exp + validateLeeway →
      validate_token env now (serializeJwt (signJwt (secretOf env) c)) = .ok c) := by
  constructor
  · intro h
    rw [validate_token_signed, if_pos (by simp only [validateLeeway] at h ⊢; omega)]
  · intro h
    rw [validate_token_signed, if_neg (by simp only [validateLeeway] at h ⊢; omega)]

/-- C1, witness: both halves of the amended statement evaluated on a
concrete signed token, expired far beyond the leeway and within it. -/
theorem c1_expiry_leeway_witness :
    validate_token none 2000 (serializeJwt (signJwt (secretOf none) ⟨"7", "a@b", 1000, 900⟩))
      = .error .expiredSignature
    ∧ validate_token none 1050 (serializeJwt (signJwt (secretOf none) ⟨"7", "a@b", 1000, 900⟩))
      = .ok ⟨"7", "a@b", 1000, 900⟩ :=
  ⟨(c1_expiry_leeway none 2000 ⟨"7", "a@b", 1000, 900⟩).1 (by decide),
   (c1_expiry_leeway none 1050 ⟨"7", "a@b", 1000, 900⟩).2 (by decide)⟩

/-- C2: a token issued by `AuthService::generate_token` for a user and
validated before its expiry under the same secret yields exactly the
claims built by `Claims::new`: the subject is the string form of the user
id and the email is the user email. -/
theorem c2_issue_validate_roundtrip (env : Option String) (now now2 : Nat) (user : User)
    (h : now2 < now + 24 * 3600) :
    validate_token env now2 (generate_token env now user)
      = .ok (Claims.new user.id user.email (now + 24 * 3600) now)
    ∧ (Claims.new user.id user.email (now + 24 * 3600) now).sub = uuidToString user.id
    ∧ (Claims.new user.id user.email (now + 24 * 3600) now).email = user.email := by
  refine ⟨?_, rfl, rfl⟩
  have hg : generate_token env now user
      = serializeJwt (signJwt (secretOf env)
          (Claims.new user.id user.email (now + 24 * 3600) now)) := rfl
  rw [hg, validate_token_signed]
  have hexp : (Claims.new user.id user.email (now + 24 * 3600) now).exp = now + 24 * 3600 := rfl
  rw [if_neg (by rw [hexp]; simp only [validateLeeway]; omega)]

/-- C2, witness: the round trip evaluated on a concrete user, issued at
500 and validated at 1000, well before expiry. -/
theorem c2_issue_validate_roundtrip_witness :
    validate_token none 1000 (generate_token none 500 sampleRegUser)
      = .ok (Claims.new sampleRegUser.id sampleRegUser.email (500 + 24 * 3600) 500)
    ∧ (Claims.new sampleRegUser.id sampleRegUser.email (500 + 24 * 3600) 500).sub
        = uuidToString sampleRegUser.id
    ∧ (Claims.new sampleRegUser.id sampleRegUser.email (500 + 24 * 3600) 500).email
        = sampleRegUser.email :=
  c2_issue_validate_roundtrip none 500 1000 sampleRegUser (by decide)

/-- C9: both `generate_token` and `validate_token` read the secret from
the `JWT_SECRET` environment value at call time, and when it is unset both
fall back to the hard-coded literal, so issuance and validation run under
the publicly known constant: generation under the unset environment equals
generation under an explicit `"your-secret-key"`, validation behaves
identically in the two configurations, a token issued with no secret
configured validates under the known constant, and the same token is
rejected when validation runs with a different secret configured at its
own call time. -/
theorem c9_jwt_secret_fallback (user : User) (now now2 : Nat) (t : String) :
    secretOf none = "your-secret-key"
    ∧ generate_token none now user = generate_token (some "your-secret-key") now user
    ∧ validate_token none now2 t = validate_token (some "your-secret-key") now2 t
    ∧ (now2 < now + 24 * 3600 →
        validate_token (some "your-secret-key") now2 (generate_token none now user)
          = .ok (Claims.new user.id user.email (now + 24 * 3600) now))
    ∧ validate_token (some "other-secret") 1000
        (generate_token none 500 ⟨7, "John", "Doe", "a@b", hash_password 3 "pw123", 0, 0⟩)
        = .error .invalidSignature := by
  refine ⟨rfl, rfl, rfl, ?_, by decide⟩
  intro h
  have hg : generate_token none now user
      = serializeJwt (signJwt (secretOf (some "your-secret-key"))
          (Claims.new user.id user.email (now + 24 * 3600) now)) := rfl
  rw [hg, validate_token_signed]
  have hexp : (Claims.new user.id user.email (now + 24 * 3600) now).exp = now + 24 * 3600 := rfl
  rw [if_neg (by rw [hexp]; simp only [validateLeeway]; omega)]

/-- C9, witness: the conditional conjunct evaluated on a concrete user,
issued at 500 with no secret configured and validated at 1000 under the
publicly known constant. -/
theorem c9_jwt_secret_fallback_witness :
    validate_token (some "your-secret-key") 1000 (generate_token none 500 sampleRegUser)
      = .ok (Claims.new sampleRegUser.id sampleRegUser.email (500 + 24 * 3600) 500) :=
  (c9_jwt_secret_fallback sampleRegUser 500 1000 "t").2.2.2.1 (by decide)

/-- C3: `AuthService::login_user` is enumeration safe: a lookup that finds
no user for the email and a lookup that finds a user whose password
verification cleanly returns false produce the identical
`INVALID_CREDENTIALS` error record, so the outcome does not reveal whether
the email exists. -/
theorem c3_login_enumeration_safe (env : Option String) (now : Nat)
    (e1 e2 : LoginEffects) (st1 st2 : Store) (d1 d2 : LoginRequest) (u : User)
    (hc1 : e1.connOk = true) (hl1 : e1.lookupOk = true)
    (hc2 : e2.connOk = true) (hl2 : e2.lookupOk = true) (hv2 : e2.verifyOk = true)
    (h1 : st1.findByEmail d1.email = none)
    (h2 : st2.findByEmail d2.email = some u)
    (hpw : verify_password d2.password u.password = false) :
    (login_user env now e1 st1 d1).1 = .error invalidCredentialsError
    ∧ (login_user env now e2 st2 d2).1 = .error invalidCredentialsError := by
  constructor
  · simp [login_user, hc1, hl1, h1]
  · simp [login_user, hc2, hl2, h2, hv2, hpw]

/-- C3, witness: both runs evaluated concretely: an empty store with an
unknown email, and a store holding one user given a wrong password. -/
theorem c3_login_enumeration_safe_witness :
    (login_user none 0 ⟨true, true, true, true⟩ ⟨[]⟩ ⟨"a@b", "x"⟩).1
      = .error invalidCredentialsError
    ∧ (login_user none 0 ⟨true, true, true, true⟩
        ⟨[⟨7, "J", "D", "c@d", hash_password 3 "right", 0, 0⟩]⟩ ⟨"c@d", "wrong"⟩).1
      = .error invalidCredentialsError :=
  c3_login_enumeration_safe none 0 ⟨true, true, true, true⟩ ⟨true, true, true, true⟩
    ⟨[]⟩ ⟨[⟨7, "J", "D", "c@d", hash_password 3 "right", 0, 0⟩]⟩
    ⟨"a@b", "x"⟩ ⟨"c@d", "wrong"⟩ ⟨7, "J", "D", "c@d", hash_password 3 "right", 0, 0⟩
    rfl rfl rfl rfl rfl (by decide) (by decide) (by decide)

/-- C4, counterexample: in `AuthService::get_current_user` the pooled
connection is not acquired first: with pool acquisition failing and the
`Authorization` header missing, the flow returns `MISSING_AUTH_HEADER`,
not `DB_CONNECTION_ERROR`. -/
theorem c4_conn_not_first_counterexample :
    (get_current_user none 0 ⟨false, true⟩ ⟨[]⟩ ⟨none⟩).1 = .error missingAuthHeaderError
    ∧ missingAuthHeaderError.code ≠ dbConnectionError.code := by decide

/-- C4, amended: `register_user` and `login_user` acquire the connection
first, so pool failure yields `DB_CONNECTION_ERROR` before any other
check; `get_current_user` extracts, validates and parses the token before
touching the pool, so those errors pre-empt `DB_CONNECTION_ERROR`, which
is returned on pool failure only once extraction, validation and subject
parsing have all succeeded. -/
theorem c4_conn_acquisition_order :
    (∀ (env : Option String) (now : Nat) (eff : RegisterEffects) (st : Store)
        (d : RegisterRequest), eff.connOk = false →
        (register_user env now eff st d).1 = .error dbConnectionError)
    ∧ (∀ (env : Option String) (now : Nat) (eff : LoginEffects) (st : Store)
        (d : LoginRequest), eff.connOk = false →
        (login_user env now eff st d).1 = .error dbConnectionError)
    ∧ (∀ (env : Option String) (now : Nat) (eff : MeEffects) (st : Store)
        (req : HttpRequest), eff.connOk = false → req.authorization = none →
        (get_current_user env now eff st req).1 = .error missingAuthHeaderError)
    ∧ (∀ (env : Option String) (now : Nat) (eff : MeEffects) (st : Store)
        (req : HttpRequest) (tok : String) (c : Claims) (uid : Uuid),
        eff.connOk = false →
        extract_token_from_request req = .ok tok →
        validate_token env now tok = .ok c →
        uuidParseStr c.sub = some uid →
        (get_current_user env now eff st req).1 = .error dbConnectionError) := by
  refine ⟨?_, ?_, ?_, ?_⟩
  · intro env now eff st d h
    simp [register_user, h]
  · intro env now eff st d h
    simp [login_user, h]
  · intro env now eff st req hconn hreq
    simp [get_current_user, extract_token_from_request, hreq]
  · intro env now eff st req tok c uid hconn hex hval hparse
    simp [get_current_user, hex, hval, hparse, hconn]

set_option maxRecDepth 100000 in
/-- C4, witness: pool failure evaluated concretely in `register_user`
(where it pre-empts everything) and in `get_current_user` behind a valid
bearer token (where it surfaces only after the token steps). -/
theorem c4_conn_acquisition_order_witness :
    (register_user none 0 ⟨false, true, true, 3, 7, true, true⟩ ⟨[]⟩ sampleRegData).1
      = .error dbConnectionError
    ∧ (get_current_user none 1000 ⟨false, true⟩ ⟨[]⟩
        ⟨some (.ascii ("Bearer " ++ generate_token none 500 sampleRegUser))⟩).1
      = .error dbConnectionError :=
  ⟨c4_conn_acquisition_order.1 none 0 ⟨false, true, true, 3, 7, true, true⟩ ⟨[]⟩
      sampleRegData rfl,
   c4_conn_acquisition_order.2.2.2 none 1000 ⟨false, true⟩ ⟨[]⟩
     ⟨some (.ascii ("Bearer " ++ generate_token none 500 sampleRegUser))⟩
     (generate_token none 500 sampleRegUser)
     (Claims.new sampleRegUser.id sampleRegUser.email (500 + 24 * 3600) 500) 7
     rfl (by decide) (by decide) (by decide)⟩

/-- C5, counterexample: `INVALID_USER_ID` is in the claimed client-error
set, yet the `me` controller maps it through its fall-through arm to 500,
a server error; the error is reachable with a correctly signed token whose
subject is not a valid id. -/
theorem c5_invalid_user_id_counterexample :
    (get_current_user none 1000 ⟨true, true⟩ ⟨[]⟩
        ⟨some (.ascii ("Bearer " ++ serializeJwt (signJwt "your-secret-key"
          ⟨"x", "a@b", 90000, 500⟩)))⟩).1 = .error invalidUserIdError
    ∧ meStatus (.error invalidUserIdError) = 500 := by decide

/-- C5, amended: of the input/validation codes, `PASSWORD_MISMATCH` maps
to 400 in the register controller and `INVALID_AUTH_FORMAT`,
`MISSING_AUTH_HEADER`, `INVALID_AUTH_HEADER` map to 401 in the `me`
controller, but `INVALID_USER_ID` is not matched by any arm of the `me`
controller and falls through to 500. -/
theorem c5_validation_codes_status :
    registerStatus (.error passwordMismatchError) = 400
    ∧ meStatus (.error invalidAuthFormatError) = 401
    ∧ meStatus (.error missingAuthHeaderError) = 401
    ∧ meStatus (.error invalidAuthHeaderError) = 401
    ∧ meStatus (.error invalidUserIdError) = 500 := by decide

/-- C6: when the connection is obtained and the password differs from its
confirmation, `register_user` returns `PASSWORD_MISMATCH`, leaves the
store unchanged, and attempts no store operation at all: no email lookup,
no hashing, no insert. -/
theorem c6_password_mismatch_no_store (env : Option String) (now : Nat)
    (eff : RegisterEffects) (st : Store) (d : RegisterRequest)
    (hconn : eff.connOk = true) (hne : d.password ≠ d.confirm_password) :
    register_user env now eff st d = (.error passwordMismatchError, st, []) := by
  simp [register_user, hconn, hne]

/-- C6, witness: a concrete mismatched registration against the empty
store. -/
theorem c6_password_mismatch_no_store_witness :
    register_user none 0 ⟨true, true, true, 3, 7, true, true⟩ ⟨[]⟩
      ⟨"J", "D", "a@b", "p1", "p2"⟩ = (.error passwordMismatchError, ⟨[]⟩, []) :=
  c6_password_mismatch_no_store none 0 ⟨true, true, true, 3, 7, true, true⟩ ⟨[]⟩
    ⟨"J", "D", "a@b", "p1", "p2"⟩ rfl (by decide)

/-- C7: every successful `register_user` or `login_user` result carries
the `Bearer` token type, an `expires_in` of 86400 seconds, a non-empty
token string, and the safe projection of the stored user (exactly id,
first name, last name, email); the projection never depends on the
password hash. -/
theorem c7_token_envelope :
    (∀ (env : Option String) (now : Nat) (eff : RegisterEffects) (st : Store)
        (d : RegisterRequest) (resp : TokenResponse) (st2 : Store) (ops : List StoreOp),
        register_user env now eff st d = (.ok resp, st2, ops) →
        resp.token_type = "Bearer" ∧ resp.expires_in = 86400 ∧ resp.token ≠ ""
          ∧ resp.user = userInfoOf (newUserOf eff now d))
    ∧ (∀ (env : Option String) (now : Nat) (eff : LoginEffects) (st : Store)
        (d : LoginRequest) (resp : TokenResponse) (ops : List StoreOp),
        login_user env now eff st d = (.ok resp, ops) →
        ∃ u, st.findByEmail d.email = some u
          ∧ resp.token_type = "Bearer" ∧ resp.expires_in = 86400 ∧ resp.token ≠ ""
          ∧ resp.user = userInfoOf u)
    ∧ (∀ (u : User) (p : BcryptHash), userInfoOf {u with password := p} = userInfoOf u) := by
  refine ⟨?_, ?_, fun u p => rfl⟩
  · intro env now eff st d resp st2 ops hr
    simp only [register_user] at hr
    split at hr
    · simp at hr
    split at hr
    · simp at hr
    split at hr
    · simp at hr
    split at hr
    · simp at hr
    split at hr
    · simp at hr
    split at hr
    · simp at hr
    split at hr
    · simp at hr
    simp only [Prod.mk.injEq, Except.ok.injEq] at hr
    obtain ⟨hresp, hst, hops⟩ := hr
    subst hresp
    exact ⟨rfl, by norm_num, generate_token_ne_empty env now _, rfl⟩
  · intro env now eff st d resp ops hr
    simp only [login_user] at hr
    split at hr
    · simp at hr
    split at hr
    · simp at hr
    split at hr
    · simp at hr
    next user heq =>
      split at hr
      · simp at hr
      split at hr
      · simp at hr
      split at hr
      · simp at hr
      simp only [Prod.mk.injEq, Except.ok.injEq] at hr
      obtain ⟨hresp, hops⟩ := hr
      subst hresp
      exact ⟨user, heq, rfl, by norm_num, generate_token_ne_empty env now _, rfl⟩

set_option maxRecDepth 100000 in
/-- C7, witness: the register half evaluated on a concrete successful
registration against the empty store. -/
theorem c7_token_envelope_witness :
    (⟨generate_token none 500 sampleRegUser, "Bearer", 24 * 3600, userInfoOf sampleRegUser⟩ :
        TokenResponse).token_type = "Bearer"
    ∧ (⟨generate_token none 500 sampleRegUser, "Bearer", 24 * 3600, userInfoOf sampleRegUser⟩ :
        TokenResponse).expires_in = 86400
    ∧ (⟨generate_token none 500 sampleRegUser, "Bearer", 24 * 3600, userInfoOf sampleRegUser⟩ :
        TokenResponse).token ≠ ""
    ∧ (⟨generate_token none 500 sampleRegUser, "Bearer", 24 * 3600, userInfoOf sampleRegUser⟩ :
        TokenResponse).user = userInfoOf (newUserOf sampleRegEffects 500 sampleRegData) :=
  c7_token_envelope.1 none 500 sampleRegEffects ⟨[]⟩ sampleRegData
    ⟨generate_token none 500 sampleRegUser, "Bearer", 24 * 3600, userInfoOf sampleRegUser⟩
    (Store.insertUser ⟨[]⟩ sampleRegUser)
    [.lookupEmail sampleRegData.email, .hashPw, .insertUser sampleRegUser]
    (by decide)

/-- C8, counterexample: the bcrypt crate hashes only the first 72 bytes of
the password, so these two distinct passwords (73 and 74 repeated bytes)
cross-verify; the verification is not false with overwhelming probability
but deterministically true. -/
theorem c8_truncation_counterexample :
    longPw 73 ≠ longPw 74
    ∧ verify_password (longPw 74) (hash_password 3 (longPw 73)) = true := by decide

/-- C8, amended: verifying a password against its own hash always
succeeds, and verifying `p1` against the hash of `p2` succeeds exactly
when the two passwords agree on their first 72 bytes (bcrypt truncation);
in particular it fails for all pairs differing within the first 72 bytes,
the model idealising digest collisions away. -/
theorem c8_hash_verify (p p1 p2 : String) (salt : Nat) :
    verify_password p (hash_password salt p) = true
    ∧ (verify_password p1 (hash_password salt p2) = true
        ↔ bcryptTruncate (strBytes p1) = bcryptTruncate (strBytes p2)) := by
  constructor
  · simp [verify_password, hash_password]
  · simp [verify_password, hash_password, bcryptDigest]

/-- C10: registration is not atomic: with the insert succeeding and the
token signing failing, `register_user` returns `TOKEN_ERROR` while the new
row stays in the store, and any retry of the same registration data fails
with `EMAIL_EXISTS`. -/
theorem c10_registration_not_atomic (env : Option String) (now : Nat)
    (eff eff2 : RegisterEffects) (st : Store) (d : RegisterRequest)
    (hconn : eff.connOk = true) (hlk : eff.lookupOk = true) (hhash : eff.hashOk = true)
    (hins : eff.insertOk = true) (hsign : eff.signOk = false)
    (hpw : d.password = d.confirm_password)
    (hnone : st.findByEmail d.email = none)
    (hc2 : eff2.connOk = true) (hl2 : eff2.lookupOk = true) :
    (register_user env now eff st d).1 = .error tokenGenerationError
    ∧ (register_user env now eff st d).2.1.findByEmail d.email
        = some (newUserOf eff now d)
    ∧ ∀ (now2 : Nat),
        (register_user env now2 eff2 ((register_user env now eff st d).2.1) d).1
          = .error emailExistsError := by
  have hrun : register_user env now eff st d
      = (.error tokenGenerationError, st.insertUser (newUserOf eff now d),
          [.lookupEmail d.email, .hashPw, .insertUser (newUserOf eff now d)]) := by
    simp [register_user, hconn, hlk, hhash, hins, hsign, hpw, hnone]
  have hfound : (st.insertUser (newUserOf eff now d)).findByEmail d.email
      = some (newUserOf eff now d) :=
    findByEmail_insert_of_none st (newUserOf eff now d) hnone
  refine ⟨by rw [hrun], by rw [hrun]; exact hfound, ?_⟩
  intro now2
  rw [hrun]
  simp [register_user, hc2, hl2, hpw, hfound]

set_option maxRecDepth 100000 in
/-- C10, witness: the failed-signing registration and its retry evaluated
concretely against the empty store. -/
theorem c10_registration_not_atomic_witness :
    (register_user none 500 ⟨true, true, true, 3, 7, true, false⟩ ⟨[]⟩ sampleRegData).1
      = .error tokenGenerationError
    ∧ (register_user none 500 ⟨true, true, true, 3, 7, true, false⟩ ⟨[]⟩
        sampleRegData).2.1.findByEmail sampleRegData.email
      = some (newUserOf ⟨true, true, true, 3, 7, true, false⟩ 500 sampleRegData)
    ∧ (register_user none 600 sampleRegEffects
        ((register_user none 500 ⟨true, true, true, 3, 7, true, false⟩ ⟨[]⟩
          sampleRegData).2.1) sampleRegData).1 = .error emailExistsError :=
  have h := c10_registration_not_atomic none 500 ⟨true, true, true, 3, 7, true, false⟩
    sampleRegEffects ⟨[]⟩ sampleRegData rfl rfl rfl rfl rfl rfl rfl rfl rfl
  ⟨h.1, h.2.1, h.2.2 600⟩
